import Mathlib

/-!
Verification of the Historical Financial Metrics & Reconciliation Engine.

This file gives a shallow embedding of the core computational routines of the
repository and proves (or refutes) the specification claims about them.

Modelling conventions:
* Database NULL and Python `None` are modelled as `Option.none`; every nullable
  numeric field is an `Option ℚ`.
* Numeric values are modelled as exact rationals `ℚ` (the source works with
  Python ints / `Decimal` / floats; all the constants involved, such as `0.5`,
  `1000000` and `100000`, are exactly representable, and the claims are about
  exact arithmetic relations).
* Python truthiness of a numeric value (`if x:`) is "present and nonzero".
* A Python exception escaping to an enclosing `except` handler is modelled with
  `Except Unit` (or a `none` overall result where the handler returns `None`).
-/

namespace YFin

/-- Embeds `HistoricalMetricsCalculator.safe_divide`
(src/historical_metrics_calculator.py, lines 39-45): return `None` when the
denominator is `None` or `0`, or the numerator is `None`; otherwise the exact
quotient. -/
def safe_divide (numerator denominator : Option ℚ) : Option ℚ :=
  match denominator with
  | none => none
  | some d =>
    if d = 0 then none
    else
      match numerator with
      | none => none
      | some n => some (n / d)

/-! ## Balance-sheet records and the Reconciler

`BalanceRec` carries exactly the `balance_sheets` columns read or written by
`BalanceSheetFixer.fix_balance_sheet_equation` and
`BalanceSheetFixer.fix_missing_calculated_fields`, plus `common_stock`, which
`HistoricalMetricsCalculator.calculate_metrics_for_period` reads. -/

@[ext]
structure BalanceRec where
  total_assets : Option ℚ
  total_liabilities : Option ℚ
  stockholders_equity : Option ℚ
  current_assets : Option ℚ
  current_liabilities : Option ℚ
  working_capital : Option ℚ
  short_term_debt : Option ℚ
  long_term_debt : Option ℚ
  total_debt : Option ℚ
  minority_interest : Option ℚ
  common_stock_equity : Option ℚ
  common_stock : Option ℚ
  deriving DecidableEq, Repr

/-- The empty balance-sheet record (all columns NULL). -/
def BalanceRec.blank : BalanceRec :=
  ⟨none, none, none, none, none, none, none, none, none, none, none, none⟩

/-- The row-selection condition of Strategy 1 of
`fix_balance_sheet_equation` (lines 71-78) on the equity column:
`stockholders_equity IS NULL OR ABS(total_assets - (total_liabilities +
stockholders_equity)) > 1000000`. -/
def eqNeedsFix (a l : ℚ) : Option ℚ → Bool
  | none => true
  | some e => decide (1000000 < |a - (l + e)|)

/-- Strategy 1 of `fix_balance_sheet_equation` (lines 71-95), as the value the
equity column holds afterwards.  A row is selected when assets and liabilities
are non-NULL and `eqNeedsFix`; the Python body then requires `assets` and
`liabilities` truthy (nonzero) and writes `assets - liabilities` only when that
value exceeds `-assets * 0.5`; in every other case the column is untouched. -/
def repairedEquity (ta tl se : Option ℚ) : Option ℚ :=
  match ta, tl with
  | some a, some l =>
    if eqNeedsFix a l se ∧ a ≠ 0 ∧ l ≠ 0 ∧ -(a / 2) < a - l
    then some (a - l)
    else se
  | _, _ => se

/-- Strategy 2 of `fix_balance_sheet_equation` (lines 98-121), as the value the
liabilities column holds afterwards.  A row is selected when assets and equity
are non-NULL and liabilities IS NULL; the body requires `assets` and `equity`
truthy and writes `assets - equity` only when it lies in `[0, assets]`. -/
def repairedLiabilities (ta tl se : Option ℚ) : Option ℚ :=
  match ta, tl, se with
  | some a, none, some e =>
    if a ≠ 0 ∧ e ≠ 0 ∧ 0 ≤ a - e ∧ a - e ≤ a
    then some (a - e)
    else none
  | _, _, _ => tl

/-- Per-record effect of `fix_balance_sheet_equation`: Strategy 1 (repair
equity) runs first, Strategy 2 (repair liabilities) then reads the updated
record. -/
def fixEquation (r : BalanceRec) : BalanceRec :=
  let r1 := { r with
    stockholders_equity :=
      repairedEquity r.total_assets r.total_liabilities r.stockholders_equity }
  { r1 with
    total_liabilities :=
      repairedLiabilities r1.total_assets r1.total_liabilities r1.stockholders_equity }

/-- The `working_capital` UPDATE of `fix_missing_calculated_fields`
(lines 134-142): set `current_assets - current_liabilities` when both are
non-NULL and the stored value is NULL or off by more than 100000. -/
def derivedWorkingCapital (ca cl wc : Option ℚ) : Option ℚ :=
  match ca, cl with
  | some x, some y =>
    match wc with
    | none => some (x - y)
    | some w => if 100000 < |w - (x - y)| then some (x - y) else some w
  | _, _ => wc

/-- The `total_debt` UPDATE of `fix_missing_calculated_fields`
(lines 146-153): set `COALESCE(short_term_debt,0) + COALESCE(long_term_debt,0)`
when at least one component is non-NULL and the stored value is NULL or off by
more than 100000. -/
def derivedTotalDebt (std ltd td : Option ℚ) : Option ℚ :=
  if std = none ∧ ltd = none then td
  else
    match td with
    | none => some (std.getD 0 + ltd.getD 0)
    | some t =>
      if 100000 < |t - (std.getD 0 + ltd.getD 0)| then some (std.getD 0 + ltd.getD 0)
      else some t

/-- The `common_stock_equity` UPDATE of `fix_missing_calculated_fields`
(lines 157-164): set `stockholders_equity - COALESCE(minority_interest,0)` when
equity is non-NULL and the stored value is NULL or off by more than 100000. -/
def derivedCommonStockEquity (se mi cse : Option ℚ) : Option ℚ :=
  match se with
  | none => cse
  | some e =>
    match cse with
    | none => some (e - mi.getD 0)
    | some c => if 100000 < |c - (e - mi.getD 0)| then some (e - mi.getD 0) else some c

/-- Per-record effect of `fix_missing_calculated_fields` (lines 126-173). -/
def fixCalculatedFields (r : BalanceRec) : BalanceRec :=
  { r with
    working_capital :=
      derivedWorkingCapital r.current_assets r.current_liabilities r.working_capital
    total_debt := derivedTotalDebt r.short_term_debt r.long_term_debt r.total_debt
    common_stock_equity :=
      derivedCommonStockEquity r.stockholders_equity r.minority_interest
        r.common_stock_equity }

/-- One full reconciliation pass over a record: `fix_balance_sheet_equation`
followed by `fix_missing_calculated_fields`, as invoked by
`BalanceSheetFixer.run_complete_fix`. -/
def reconcilePass (r : BalanceRec) : BalanceRec :=
  fixCalculatedFields (fixEquation r)

/-- A reconciliation pass over a whole set of records; the SQL UPDATEs act on
each row independently. -/
def reconcileAll (rs : List BalanceRec) : List BalanceRec :=
  rs.map reconcilePass

/-! ## Quality scoring (`BalanceSheetFixer.add_data_quality_flags`) -/

inductive QFlag where
  | missing_assets
  | missing_liabilities
  | missing_equity
  | major_imbalance
  | minor_imbalance
  | clean
  deriving DecidableEq, Repr

/-- The `data_quality_score` CASE expression of `add_data_quality_flags`
(lines 271-281). -/
def qualityScore (r : BalanceRec) : ℤ :=
  match r.total_assets with
  | none => 0
  | some a =>
    match r.total_liabilities with
    | none => 30
    | some l =>
      match r.stockholders_equity with
      | none => 30
      | some e =>
        if 1000000 < |a - (l + e)| then 50
        else if 100000 < |a - (l + e)| then 80
        else 100

/-- The `quality_flags` CASE expression of `add_data_quality_flags`
(lines 282-290); each branch assigns a one-element array. -/
def qualityFlags (r : BalanceRec) : List QFlag :=
  match r.total_assets with
  | none => [QFlag.missing_assets]
  | some a =>
    match r.total_liabilities with
    | none => [QFlag.missing_liabilities]
    | some l =>
      match r.stockholders_equity with
      | none => [QFlag.missing_equity]
      | some e =>
        if 1000000 < |a - (l + e)| then [QFlag.major_imbalance]
        else if 100000 < |a - (l + e)| then [QFlag.minor_imbalance]
        else [QFlag.clean]

/-! ## Dates, income statements and the year-over-year Growth Calculator -/

/-- A Python `datetime.date`; comparison is lexicographic. -/
structure PDate where
  year : ℤ
  month : ℤ
  day : ℤ
  deriving DecidableEq, Repr

/-- Python date comparison `d1 <= d2` (lexicographic on year, month, day). -/
def PDate.leB (d1 d2 : PDate) : Bool :=
  decide (d1.year < d2.year) ||
    (decide (d1.year = d2.year) &&
      (decide (d1.month < d2.month) ||
        (decide (d1.month = d2.month) && decide (d1.day ≤ d2.day))))

/-- `date(current_date.year - 1, current_date.month, current_date.day)` from
`calculate_yoy_growth` (line 228); the model assumes the day exists in the
prior year. -/
def prevYearDate (d : PDate) : PDate :=
  { d with year := d.year - 1 }

/-- The `income_statements` columns read by the metric and growth
calculators. -/
structure IncomeData where
  total_revenue : Option ℚ
  gross_profit : Option ℚ
  operating_income : Option ℚ
  net_income : Option ℚ
  diluted_eps : Option ℚ
  deriving DecidableEq, Repr

/-- An income-statement row of one company and period type. -/
structure IncomeStmt where
  period_ending : PDate
  data : IncomeData
  deriving DecidableEq, Repr

/-- `get_closest_income_statement` (lines 144-156): the row with the maximum
`period_ending <= target`, or absent. -/
def resolveIncomeAsOf (stmts : List IncomeStmt) (target : PDate) : Option IncomeStmt :=
  stmts.foldl
    (fun acc s =>
      if s.period_ending.leB target then
        match acc with
        | none => some s
        | some b => if b.period_ending.leB s.period_ending then some s else some b
      else acc)
    none

/-- Revenue branch of `calculate_yoy_growth` (lines 235-241): guarded by
`prev_revenue` truthy and `> 0`; raises (TypeError) when the guard passes but
the current revenue is NULL; multiplies by 100. -/
def yoyRevenueBranch (cur prevR : Option ℚ) : Except Unit (Option ℚ) :=
  match prevR with
  | some p =>
    if 0 < p then
      match cur with
      | none => Except.error ()
      | some c => Except.ok (some ((c - p) / p * 100))
    else Except.ok none
  | none => Except.ok none

/-- Earnings branch of `calculate_yoy_growth` (lines 243-249): guarded by
`prev_earnings` truthy and `!= 0`; divides by `abs(prev_earnings)`; raises when
the guard passes but the current earnings is NULL; multiplies by 100. -/
def yoyEarningsBranch (cur prevE : Option ℚ) : Except Unit (Option ℚ) :=
  match prevE with
  | some p =>
    if p ≠ 0 then
      match cur with
      | none => Except.error ()
      | some c => Except.ok (some ((c - p) / |p| * 100))
    else Except.ok none
  | none => Except.ok none

/-- Body of `calculate_yoy_growth` given the two resolved income statements:
both must be present, then the revenue and earnings branches run in order. -/
def yoyFromPair (cur prev : Option IncomeData) : Except Unit (Option ℚ × Option ℚ) :=
  match cur, prev with
  | some c, some p =>
    match yoyRevenueBranch c.total_revenue p.total_revenue with
    | Except.error u => Except.error u
    | Except.ok rg =>
      match yoyEarningsBranch c.net_income p.net_income with
      | Except.error u => Except.error u
      | Except.ok eg => Except.ok (rg, eg)
  | _, _ => Except.ok (none, none)

/-- `HistoricalMetricsCalculator.calculate_yoy_growth` (lines 223-251): the
current statement is resolved as of `current_date`, the comparison statement as
of the same calendar date one year earlier. -/
def calculate_yoy_growth (stmts : List IncomeStmt) (current_date : PDate) :
    Except Unit (Option ℚ × Option ℚ) :=
  yoyFromPair ((resolveIncomeAsOf stmts current_date).map IncomeStmt.data)
    ((resolveIncomeAsOf stmts (prevYearDate current_date)).map IncomeStmt.data)

/-! ## The ordinal LAG alignment of `populate_historical_metrics.py` -/

/-- Value of `LAG(col, k) OVER (PARTITION BY company ORDER BY period_ending)`
at row `i` of a company's chronological quarterly sequence `xs` (the final
definition of `calculate_quarterly_metrics`, lines 456-464, uses `k = 4`):
the column value `k` rows earlier, NULL when fewer than `k` rows precede. -/
def lagAt (k i : ℕ) (xs : List (Option ℚ)) : Option ℚ :=
  if k ≤ i then xs.getD (i - k) none else none

/-- Revenue-growth branch of the final `calculate_financial_metrics`
(lines 594-595): requires the lagged revenue truthy and `> 0` and the current
revenue truthy; no scaling by 100 in this definition. -/
def popRevenueGrowth (cur prev : Option ℚ) : Option ℚ :=
  match prev with
  | some p =>
    if 0 < p then
      match cur with
      | some c => if c ≠ 0 then some ((c - p) / p) else none
      | none => none
    else none
  | none => none

/-- Quarterly revenue growth at row `i`: current revenue against the
`LAG(·, 4)` value. -/
def quarterlyRevGrowthAt (xs : List (Option ℚ)) (i : ℕ) : Option ℚ :=
  popRevenueGrowth (xs.getD i none) (lagAt 4 i xs)

/-! ## The Derived Metric Calculator
(`HistoricalMetricsCalculator.calculate_metrics_for_period`, lines 47-142) -/

/-- A `price_history` row; `close_price` is nullable. -/
structure PriceData where
  close_price : Option ℚ
  deriving DecidableEq, Repr

/-- The `cash_flow_statements` columns read by the calculator. -/
structure CashflowData where
  operating_cash_flow : Option ℚ
  free_cash_flow : Option ℚ
  deriving DecidableEq, Repr

/-- The metric fields assembled by `calculate_metrics_for_period` and stored by
`store_historical_metrics` (lines 253-310).  `forward_pe` and `price_to_book`
appear in the INSERT column list but are never put into the `metrics` dict. -/
structure Metrics where
  current_price : Option ℚ
  market_cap : Option ℤ
  gross_margin : Option ℚ
  operating_margin : Option ℚ
  profit_margin : Option ℚ
  trailing_pe : Option ℚ
  price_to_sales : Option ℚ
  debt_to_equity : Option ℚ
  return_on_equity : Option ℚ
  return_on_assets : Option ℚ
  current_ratio : Option ℚ
  book_value_per_share : Option ℚ
  shares_outstanding : Option ℚ
  operating_cashflow : Option ℚ
  free_cashflow : Option ℚ
  fcf_per_share : Option ℚ
  revenue_growth_yoy : Option ℚ
  earnings_growth_yoy : Option ℚ
  forward_pe : Option ℚ
  price_to_book : Option ℚ
  deriving DecidableEq, Repr

/-- Python `int(...)` on an exact number: truncation toward zero. -/
def ratTrunc (q : ℚ) : ℤ :=
  if 0 ≤ q then ⌊q⌋ else ⌈q⌉

/-- Python truthiness of a nullable number. -/
def truthy (x : Option ℚ) : Bool :=
  match x with
  | none => false
  | some v => decide (v ≠ 0)

/-- The price/market-cap block (lines 64-71): `current_price` is the close
price; `market_cap = int(close_price * common_stock)` when the balance sheet is
present with truthy positive `common_stock`.  A `none` result models the
TypeError raised when the close price is NULL while shares are positive, which
the surrounding handler turns into an overall `None`. -/
def priceStep (price : Option PriceData) (balance : Option BalanceRec) :
    Option (Option ℚ × Option ℤ) :=
  match price with
  | none => some (none, none)
  | some p =>
    match balance with
    | none => some (p.close_price, none)
    | some b =>
      match b.common_stock with
      | none => some (p.close_price, none)
      | some cs =>
        if 0 < cs then
          match p.close_price with
          | none => none
          | some cp => some (some cp, some (ratTrunc (cp * cs)))
        else some (p.close_price, none)

/-- Margins block (lines 74-83): gross/operating/profit margins via
`safe_divide` when total revenue is truthy positive. -/
def marginBlock (income : Option IncomeData) : Option ℚ × Option ℚ × Option ℚ :=
  match income with
  | none => (none, none, none)
  | some inc =>
    match inc.total_revenue with
    | some tr =>
      if 0 < tr then
        (safe_divide inc.gross_profit (some tr),
          safe_divide inc.operating_income (some tr),
          safe_divide inc.net_income (some tr))
      else (none, none, none)
    | none => (none, none, none)

/-- Trailing PE (lines 86-89): only under `income_data` present and
`metrics.get('market_cap')` truthy, then only when `diluted_eps` is truthy
positive and price data is present. -/
def trailingPeOf (income : Option IncomeData) (mc : Option ℤ) (price : Option PriceData) :
    Option ℚ :=
  match income, mc with
  | some inc, some m =>
    if m ≠ 0 then
      match inc.diluted_eps with
      | some e =>
        if 0 < e then
          match price with
          | some p => safe_divide p.close_price (some e)
          | none => none
        else none
      | none => none
    else none
  | _, _ => none

/-- Price-to-sales (lines 91-93): under the same market-cap gate, when total
revenue is truthy positive. -/
def priceToSalesOf (income : Option IncomeData) (mc : Option ℤ) : Option ℚ :=
  match income, mc with
  | some inc, some m =>
    if m ≠ 0 then
      match inc.total_revenue with
      | some tr => if 0 < tr then safe_divide (some (m : ℚ)) (some tr) else none
      | none => none
    else none
  | _, _ => none

/-- Debt-to-equity (lines 103-104): when equity is present and nonzero. -/
def debtToEquityOf (balance : Option BalanceRec) : Option ℚ :=
  match balance with
  | some b =>
    match b.stockholders_equity with
    | some se => if se ≠ 0 then safe_divide b.total_debt (some se) else none
    | none => none
  | none => none

/-- Return on equity (lines 106-107). -/
def returnOnEquityOf (balance : Option BalanceRec) (income : Option IncomeData) :
    Option ℚ :=
  match balance with
  | some b =>
    match b.stockholders_equity with
    | some se =>
      if se ≠ 0 then
        match income with
        | some inc =>
          if truthy inc.net_income then safe_divide inc.net_income (some se) else none
        | none => none
      else none
    | none => none
  | none => none

/-- Return on assets (lines 109-110). -/
def returnOnAssetsOf (balance : Option BalanceRec) (income : Option IncomeData) :
    Option ℚ :=
  match balance with
  | some b =>
    match b.total_assets with
    | some a =>
      if 0 < a then
        match income with
        | some inc =>
          if truthy inc.net_income then safe_divide inc.net_income (some a) else none
        | none => none
      else none
    | none => none
  | none => none

/-- Current ratio (lines 112-113). -/
def currentRatioOf (balance : Option BalanceRec) : Option ℚ :=
  match balance with
  | some b =>
    match b.current_liabilities with
    | some cl => if 0 < cl then safe_divide b.current_assets (some cl) else none
    | none => none
  | none => none

/-- The `shares_outstanding` metric (lines 116-119): the resolved
`get_shares_outstanding` value, recorded only inside the balance block when
truthy positive. -/
def sharesMetricOf (balance : Option BalanceRec) (so : Option ℚ) : Option ℚ :=
  match balance with
  | some _ =>
    match so with
    | some s => if 0 < s then some s else none
    | none => none
  | none => none

/-- Book value per share (line 118): `safe_divide(stockholders_equity,
shares_outstanding)` under the same gate. -/
def bookValuePerShareOf (balance : Option BalanceRec) (so : Option ℚ) : Option ℚ :=
  match balance with
  | some b =>
    match so with
    | some s => if 0 < s then safe_divide b.stockholders_equity (some s) else none
    | none => none
  | none => none

/-- Operating cash flow metric (line 126). -/
def operatingCashflowOf (cashflow : Option CashflowData) : Option ℚ :=
  match cashflow with
  | some cf => cf.operating_cash_flow
  | none => none

/-- Free cash flow metric (line 127). -/
def freeCashflowOf (cashflow : Option CashflowData) : Option ℚ :=
  match cashflow with
  | some cf => cf.free_cash_flow
  | none => none

/-- Free cash flow per share (lines 129-130): when free cash flow and the
recorded shares metric are truthy. -/
def fcfPerShareOf (cashflow : Option CashflowData) (sharesMetric : Option ℚ) : Option ℚ :=
  match cashflow with
  | some cf =>
    if truthy cf.free_cash_flow ∧ truthy sharesMetric then
      safe_divide cf.free_cash_flow sharesMetric
    else none
  | none => none

/-- Embeds `calculate_metrics_for_period` (lines 47-142).  The four statement
lookups, the `get_shares_outstanding` value `so`, and the year-earlier income
statement consumed by `calculate_yoy_growth` are supplied as already-resolved
inputs.  A `none` result covers both the all-inputs-absent early return and the
`except` handler returning `None` after an internal exception. -/
def calcMetrics (income : Option IncomeData) (balance : Option BalanceRec)
    (cashflow : Option CashflowData) (price : Option PriceData)
    (so : Option ℚ) (prevIncome : Option IncomeData) : Option Metrics :=
  if income = none ∧ balance = none ∧ cashflow = none ∧ price = none then none
  else
    match priceStep price balance with
    | none => none
    | some (cp, mc) =>
      match yoyFromPair income prevIncome with
      | Except.error _ => none
      | Except.ok (rg, eg) =>
        some
          { current_price := cp
            market_cap := mc
            gross_margin := (marginBlock income).1
            operating_margin := (marginBlock income).2.1
            profit_margin := (marginBlock income).2.2
            trailing_pe := trailingPeOf income mc price
            price_to_sales := priceToSalesOf income mc
            debt_to_equity := debtToEquityOf balance
            return_on_equity := returnOnEquityOf balance income
            return_on_assets := returnOnAssetsOf balance income
            current_ratio := currentRatioOf balance
            book_value_per_share := bookValuePerShareOf balance so
            shares_outstanding := sharesMetricOf balance so
            operating_cashflow := operatingCashflowOf cashflow
            free_cashflow := freeCashflowOf cashflow
            fcf_per_share := fcfPerShareOf cashflow (sharesMetricOf balance so)
            revenue_growth_yoy := rg
            earnings_growth_yoy := eg
            forward_pe := none
            price_to_book := none }

/-! ## Concrete inputs used by scenario, counterexample and witness theorems -/

/-- An income-statement row with only the revenue populated. -/
def mkIncomeStmt (y m d : ℤ) (rev : ℚ) : IncomeStmt :=
  ⟨⟨y, m, d⟩, ⟨some rev, none, none, none, none⟩⟩

/-- Eight quarterly rows of one company with irregular cadence: the 2021-09
quarter was never filed. -/
def stmtsIrregular : List IncomeStmt :=
  [mkIncomeStmt 2019 12 31 1, mkIncomeStmt 2020 3 31 2, mkIncomeStmt 2020 6 30 3,
    mkIncomeStmt 2020 9 30 10, mkIncomeStmt 2020 12 31 20, mkIncomeStmt 2021 3 31 5,
    mkIncomeStmt 2021 6 30 6, mkIncomeStmt 2021 12 31 30]

/-- Four quarterly rows spanning a reporting gap: only three periods precede
the last one. -/
def stmtsShort : List IncomeStmt :=
  [mkIncomeStmt 2019 6 30 100, mkIncomeStmt 2019 9 30 110, mkIncomeStmt 2019 12 31 120,
    mkIncomeStmt 2020 6 30 150]

/-- A quarterly revenue column of length 8. -/
def quarterlyRevenues8 : List (Option ℚ) :=
  [some 1, some 2, some 3, some 10, some 20, some 5, some 6, some 30]

/-- The scenario record: assets 1,000,000, liabilities 600,000, equity NULL. -/
def scenarioEquityMissing : BalanceRec :=
  { BalanceRec.blank with total_assets := some 1000000, total_liabilities := some 600000 }

/-- A record out of tolerance that no repair precondition reaches
(liabilities are zero, hence not truthy). -/
def sampleImbalanced : BalanceRec :=
  { BalanceRec.blank with
    total_assets := some 10000000
    total_liabilities := some 0
    stockholders_equity := some 0 }

/-- An income statement with revenue 50, net income 8 and EPS 5. -/
def incPos : IncomeData :=
  ⟨some 50, none, none, some 8, some 5⟩

/-- The same statement with EPS -2. -/
def incNegEps : IncomeData :=
  ⟨some 50, none, none, some 8, some (-2)⟩

/-- A balance sheet whose only populated column is `common_stock = 2`. -/
def balShares2 : BalanceRec :=
  { BalanceRec.blank with common_stock := some 2 }

/-- A balance sheet with equity 50 and `common_stock = 10`. -/
def balEquity50 : BalanceRec :=
  { BalanceRec.blank with stockholders_equity := some 50, common_stock := some 10 }

/-- A price row with close price 100. -/
def price100 : PriceData :=
  ⟨some 100⟩

/-- The metric record `calculate_metrics_for_period` produces from `incPos`,
`balShares2`, no cash flow, `price100`, 10 shares outstanding and no
year-earlier statement. -/
def mPe : Metrics :=
  { current_price := some 100
    market_cap := some 200
    gross_margin := none
    operating_margin := none
    profit_margin := some (4 / 25)
    trailing_pe := some 20
    price_to_sales := some 4
    debt_to_equity := none
    return_on_equity := none
    return_on_assets := none
    current_ratio := none
    book_value_per_share := none
    shares_outstanding := some 10
    operating_cashflow := none
    free_cashflow := none
    fcf_per_share := none
    revenue_growth_yoy := none
    earnings_growth_yoy := none
    forward_pe := none
    price_to_book := none }

/-- The metric record produced when `incNegEps` replaces `incPos`: identical
except that the negative EPS suppresses the trailing PE. -/
def mNegEps : Metrics :=
  { mPe with trailing_pe := none }

/-- The metric record produced from no income, `balEquity50`, no cash flow,
`price100`, 10 shares outstanding and no year-earlier statement. -/
def mBook : Metrics :=
  { current_price := some 100
    market_cap := some 1000
    gross_margin := none
    operating_margin := none
    profit_margin := none
    trailing_pe := none
    price_to_sales := none
    debt_to_equity := none
    return_on_equity := none
    return_on_assets := none
    current_ratio := none
    book_value_per_share := some 5
    shares_outstanding := some 10
    operating_cashflow := none
    free_cashflow := none
    fcf_per_share := none
    revenue_growth_yoy := none
    earnings_growth_yoy := none
    forward_pe := none
    price_to_book := none }

/-- The metric record produced from `incPos`, no balance sheet, no cash flow,
`price100`, 11 shares outstanding and no year-earlier statement. -/
def mNoBalance : Metrics :=
  { current_price := some 100
    market_cap := none
    gross_margin := none
    operating_margin := none
    profit_margin := some (4 / 25)
    trailing_pe := none
    price_to_sales := none
    debt_to_equity := none
    return_on_equity := none
    return_on_assets := none
    current_ratio := none
    book_value_per_share := none
    shares_outstanding := none
    operating_cashflow := none
    free_cashflow := none
    fcf_per_share := none
    revenue_growth_yoy := none
    earnings_growth_yoy := none
    forward_pe := none
    price_to_book := none }

/-! ## Lemmas about the reconciliation pass -/

theorem eqNeedsFix_self (a l : ℚ) : eqNeedsFix a l (some (a - l)) = false := by
  simp only [eqNeedsFix, decide_eq_false_iff_not, not_lt]
  rw [show a - (l + (a - l)) = 0 by ring]
  norm_num

theorem eqNeedsFix_closed (a e : ℚ) : eqNeedsFix a (a - e) (some e) = false := by
  simp only [eqNeedsFix, decide_eq_false_iff_not, not_lt]
  rw [show a - (a - e + e) = 0 by ring]
  norm_num

/-- A second run of Strategy 1 never changes equity again. -/
theorem repairedEquity_stable (ta tl se : Option ℚ) :
    repairedEquity ta
      (repairedLiabilities ta tl (repairedEquity ta tl se))
      (repairedEquity ta tl se) = repairedEquity ta tl se := by
  cases ta with
  | none => cases tl <;> rfl
  | some a =>
    cases tl with
    | some l =>
      by_cases hC : (eqNeedsFix a l se ∧ a ≠ 0 ∧ l ≠ 0 ∧ -(a / 2) < a - l)
      · have he : repairedEquity (some a) (some l) se = some (a - l) := by
          simp only [repairedEquity]; rw [if_pos hC]
        rw [he]
        have hl : repairedLiabilities (some a) (some l) (some (a - l)) = some l := rfl
        rw [hl]
        simp only [repairedEquity, eqNeedsFix_self]
        simp
      · have he : repairedEquity (some a) (some l) se = se := by
          simp only [repairedEquity]; rw [if_neg hC]
        rw [he]
        have hl : repairedLiabilities (some a) (some l) se = some l := by
          cases se <;> rfl
        rw [hl]
        exact he
    | none =>
      cases se with
      | none => rfl
      | some e =>
        by_cases hD : (a ≠ 0 ∧ e ≠ 0 ∧ 0 ≤ a - e ∧ a - e ≤ a)
        · show repairedEquity (some a)
            (repairedLiabilities (some a) none (some e)) (some e) = some e
          have hl : repairedLiabilities (some a) none (some e) = some (a - e) := by
            simp only [repairedLiabilities]; rw [if_pos hD]
          rw [hl]
          simp only [repairedEquity, eqNeedsFix_closed]
          simp
        · show repairedEquity (some a)
            (repairedLiabilities (some a) none (some e)) (some e) = some e
          have hl : repairedLiabilities (some a) none (some e) = none := by
            simp only [repairedLiabilities]; rw [if_neg hD]
          rw [hl]
          rfl

/-- A second run of Strategy 2 never changes liabilities again. -/
theorem repairedLiabilities_stable (ta tl se : Option ℚ) :
    repairedLiabilities ta
      (repairedLiabilities ta tl (repairedEquity ta tl se))
      (repairedEquity ta tl se) = repairedLiabilities ta tl (repairedEquity ta tl se) := by
  cases ta with
  | none => cases tl <;> cases se <;> rfl
  | some a =>
    cases tl with
    | some l =>
      by_cases hC : (eqNeedsFix a l se ∧ a ≠ 0 ∧ l ≠ 0 ∧ -(a / 2) < a - l)
      · have he : repairedEquity (some a) (some l) se = some (a - l) := by
          simp only [repairedEquity]; rw [if_pos hC]
        rw [he]
        rfl
      · have he : repairedEquity (some a) (some l) se = se := by
          simp only [repairedEquity]; rw [if_neg hC]
        rw [he]
        cases se <;> rfl
    | none =>
      cases se with
      | none => rfl
      | some e =>
        by_cases hD : (a ≠ 0 ∧ e ≠ 0 ∧ 0 ≤ a - e ∧ a - e ≤ a)
        · show repairedLiabilities (some a)
            (repairedLiabilities (some a) none (some e)) (some e) =
              repairedLiabilities (some a) none (some e)
          have hl : repairedLiabilities (some a) none (some e) = some (a - e) := by
            simp only [repairedLiabilities]; rw [if_pos hD]
          rw [hl]
          rfl
        · show repairedLiabilities (some a)
            (repairedLiabilities (some a) none (some e)) (some e) =
              repairedLiabilities (some a) none (some e)
          have hl : repairedLiabilities (some a) none (some e) = none := by
            simp only [repairedLiabilities]; rw [if_neg hD]
          rw [hl]
          exact hl

theorem derivedWorkingCapital_idem (ca cl wc : Option ℚ) :
    derivedWorkingCapital ca cl (derivedWorkingCapital ca cl wc) =
      derivedWorkingCapital ca cl wc := by
  cases ca with
  | none => rfl
  | some x =>
    cases cl with
    | none => rfl
    | some y =>
      cases wc with
      | none =>
        simp only [derivedWorkingCapital]
        rw [if_neg (by rw [sub_self, abs_zero]; norm_num)]
      | some w =>
        by_cases h : (100000 : ℚ) < |w - (x - y)|
        · simp only [derivedWorkingCapital, if_pos h]
          rw [if_neg (by rw [sub_self, abs_zero]; norm_num)]
        · simp only [derivedWorkingCapital, if_neg h, if_neg h]

theorem derivedTotalDebt_idem (std ltd td : Option ℚ) :
    derivedTotalDebt std ltd (derivedTotalDebt std ltd td) =
      derivedTotalDebt std ltd td := by
  by_cases hb : std = none ∧ ltd = none
  · simp only [derivedTotalDebt, if_pos hb]
  · cases td with
    | none =>
      simp only [derivedTotalDebt, if_neg hb]
      rw [if_neg (by rw [sub_self, abs_zero]; norm_num)]
    | some t =>
      by_cases h : (100000 : ℚ) < |t - (std.getD 0 + ltd.getD 0)|
      · simp only [derivedTotalDebt, if_neg hb, if_pos h]
        rw [if_neg (by rw [sub_self, abs_zero]; norm_num)]
      · simp only [derivedTotalDebt, if_neg hb, if_neg h, if_neg h]

theorem derivedCommonStockEquity_idem (se mi cse : Option ℚ) :
    derivedCommonStockEquity se mi (derivedCommonStockEquity se mi cse) =
      derivedCommonStockEquity se mi cse := by
  cases se with
  | none => rfl
  | some e =>
    cases cse with
    | none =>
      simp only [derivedCommonStockEquity]
      rw [if_neg (by rw [sub_self, abs_zero]; norm_num)]
    | some c =>
      by_cases h : (100000 : ℚ) < |c - (e - mi.getD 0)|
      · simp only [derivedCommonStockEquity, if_pos h]
        rw [if_neg (by rw [sub_self, abs_zero]; norm_num)]
      · simp only [derivedCommonStockEquity, if_neg h, if_neg h]

theorem reconcilePass_total_assets (r : BalanceRec) :
    (reconcilePass r).total_assets = r.total_assets := rfl

theorem reconcilePass_total_liabilities (r : BalanceRec) :
    (reconcilePass r).total_liabilities =
      repairedLiabilities r.total_assets r.total_liabilities
        (repairedEquity r.total_assets r.total_liabilities r.stockholders_equity) := rfl

theorem reconcilePass_stockholders_equity (r : BalanceRec) :
    (reconcilePass r).stockholders_equity =
      repairedEquity r.total_assets r.total_liabilities r.stockholders_equity := rfl

theorem reconcilePass_working_capital (r : BalanceRec) :
    (reconcilePass r).working_capital =
      derivedWorkingCapital r.current_assets r.current_liabilities r.working_capital := rfl

theorem reconcilePass_total_debt (r : BalanceRec) :
    (reconcilePass r).total_debt =
      derivedTotalDebt r.short_term_debt r.long_term_debt r.total_debt := rfl

theorem reconcilePass_common_stock_equity (r : BalanceRec) :
    (reconcilePass r).common_stock_equity =
      derivedCommonStockEquity
        (repairedEquity r.total_assets r.total_liabilities r.stockholders_equity)
        r.minority_interest r.common_stock_equity := rfl

theorem reconcilePass_idem (r : BalanceRec) :
    reconcilePass (reconcilePass r) = reconcilePass r := by
  ext1
  · rfl
  · rw [reconcilePass_total_liabilities (reconcilePass r),
      reconcilePass_total_assets, reconcilePass_total_liabilities,
      reconcilePass_stockholders_equity, repairedEquity_stable]
    exact repairedLiabilities_stable _ _ _
  · rw [reconcilePass_stockholders_equity (reconcilePass r),
      reconcilePass_total_assets, reconcilePass_total_liabilities,
      reconcilePass_stockholders_equity]
    exact repairedEquity_stable _ _ _
  · rfl
  · rfl
  · rw [reconcilePass_working_capital (reconcilePass r)]
    exact derivedWorkingCapital_idem _ _ _
  · rfl
  · rfl
  · rw [reconcilePass_total_debt (reconcilePass r)]
    exact derivedTotalDebt_idem _ _ _
  · rfl
  · rw [reconcilePass_common_stock_equity (reconcilePass r),
      reconcilePass_total_assets, reconcilePass_total_liabilities,
      reconcilePass_stockholders_equity, repairedEquity_stable,
      reconcilePass_common_stock_equity]
    exact derivedCommonStockEquity_idem _ _ _
  · rfl

/-- Claim C2: the Reconciler pass (equation repair plus secondary field
derivation) is idempotent: for every set of balance-sheet records, running the
full pass a second time changes no field value of any record. -/
theorem reconciler_pass_idempotent (rs : List BalanceRec) :
    reconcileAll (reconcileAll rs) = reconcileAll rs := by
  induction rs with
  | nil => rfl
  | cons r t ih =>
    simp only [reconcileAll, List.map_cons, List.map_map] at ih ⊢
    rw [reconcilePass_idem r, ih]

/-! ## Claim C1: safe division -/

/-- Claim C1: for every numerator and denominator, `safe_divide n d` is absent
iff the denominator is absent or zero or the numerator is absent; in every
other case it is exactly `n / d` (so it never substitutes 0 for an undefined
quotient and total-ness rules out exceptions). -/
theorem safe_divide_spec (n d : Option ℚ) :
    (safe_divide n d = none ↔ d = none ∨ d = some 0 ∨ n = none) ∧
    (∀ nv dv, n = some nv → d = some dv → dv ≠ 0 → safe_divide n d = some (nv / dv)) := by
  constructor
  · cases d with
    | none => simp [safe_divide]
    | some dv =>
      by_cases hd : dv = 0
      · subst hd; simp [safe_divide]
      · cases n with
        | none => simp [safe_divide, hd]
        | some nv => simp [safe_divide, hd]
  · rintro nv dv rfl rfl hdv
    simp [safe_divide, hdv]

/-- Witness for C1 at numerator 6, denominator 3. -/
theorem safe_divide_spec_witness :
    safe_divide (some 6) (some 3) = some (6 / 3) :=
  (safe_divide_spec (some 6) (some 3)).2 6 3 rfl rfl (by norm_num)

/-! ## Claim C3: balance invariant after reconciliation and scoring -/

/-- Claim C3: after a reconciliation-and-scoring pass, every record whose
assets, liabilities and equity are all present is either within the 1,000,000
tolerance or carries the `major_imbalance`/`minor_imbalance` flag; no record is
both out of tolerance and unflagged. -/
theorem balance_invariant_after_pass (r : BalanceRec) (a l e : ℚ)
    (ha : (reconcilePass r).total_assets = some a)
    (hl : (reconcilePass r).total_liabilities = some l)
    (he : (reconcilePass r).stockholders_equity = some e) :
    |a - (l + e)| ≤ 1000000 ∨
      qualityFlags (reconcilePass r) = [QFlag.major_imbalance] ∨
      qualityFlags (reconcilePass r) = [QFlag.minor_imbalance] := by
  by_cases h : |a - (l + e)| ≤ 1000000
  · exact Or.inl h
  · refine Or.inr (Or.inl ?_)
    rcases hr : reconcilePass r with ⟨ta, tl, se, c4, c5, c6, c7, c8, c9, c10, c11, c12⟩
    rw [hr] at ha hl he
    dsimp only at ha hl he
    subst ha; subst hl; subst he
    simp only [qualityFlags]
    rw [if_pos (not_le.mp h)]

/-- Witness for C3 at a record that stays out of tolerance (zero liabilities
are not truthy, so no repair fires) and is flagged `major_imbalance`. -/
theorem balance_invariant_after_pass_witness :
    |(10000000 : ℚ) - (0 + 0)| ≤ 1000000 ∨
      qualityFlags (reconcilePass sampleImbalanced) = [QFlag.major_imbalance] ∨
      qualityFlags (reconcilePass sampleImbalanced) = [QFlag.minor_imbalance] := by
  refine balance_invariant_after_pass sampleImbalanced 10000000 0 0 ?_ ?_ ?_ <;>
    norm_num [reconcilePass, fixEquation, fixCalculatedFields, repairedEquity,
      repairedLiabilities, eqNeedsFix, derivedWorkingCapital, derivedTotalDebt,
      derivedCommonStockEquity, sampleImbalanced, BalanceRec.blank]

/-! ## Claim C6: the Quality Scorer decision table -/

/-- Claim C6: the Quality Scorer is a pure function of assets/liabilities/
equity presence and imbalance magnitude, evaluated top-to-bottom with first
match winning, and on the scenario assets 1,000,000 / liabilities 600,000 /
equity absent the Reconciler sets equity to 400,000 after which the record
scores 100 with flag `clean`. -/
theorem quality_score_decision_table :
    (∀ r : BalanceRec, r.total_assets = none →
      qualityScore r = 0 ∧ qualityFlags r = [QFlag.missing_assets]) ∧
    (∀ (r : BalanceRec) (a : ℚ), r.total_assets = some a → r.total_liabilities = none →
      qualityScore r = 30 ∧ qualityFlags r = [QFlag.missing_liabilities]) ∧
    (∀ (r : BalanceRec) (a l : ℚ), r.total_assets = some a →
      r.total_liabilities = some l → r.stockholders_equity = none →
      qualityScore r = 30 ∧ qualityFlags r = [QFlag.missing_equity]) ∧
    (∀ (r : BalanceRec) (a l e : ℚ), r.total_assets = some a →
      r.total_liabilities = some l → r.stockholders_equity = some e →
      1000000 < |a - (l + e)| →
      qualityScore r = 50 ∧ qualityFlags r = [QFlag.major_imbalance]) ∧
    (∀ (r : BalanceRec) (a l e : ℚ), r.total_assets = some a →
      r.total_liabilities = some l → r.stockholders_equity = some e →
      |a - (l + e)| ≤ 1000000 → 100000 < |a - (l + e)| →
      qualityScore r = 80 ∧ qualityFlags r = [QFlag.minor_imbalance]) ∧
    (∀ (r : BalanceRec) (a l e : ℚ), r.total_assets = some a →
      r.total_liabilities = some l → r.stockholders_equity = some e →
      |a - (l + e)| ≤ 100000 →
      qualityScore r = 100 ∧ qualityFlags r = [QFlag.clean]) ∧
    ((reconcilePass scenarioEquityMissing).stockholders_equity = some 400000 ∧
      qualityScore (reconcilePass scenarioEquityMissing) = 100 ∧
      qualityFlags (reconcilePass scenarioEquityMissing) = [QFlag.clean]) := by
  refine ⟨?_, ?_, ?_, ?_, ?_, ?_, ?_, ?_, ?_⟩
  rotate_left 6
  · norm_num [reconcilePass, fixEquation, fixCalculatedFields, repairedEquity,
      repairedLiabilities, eqNeedsFix, derivedWorkingCapital, derivedTotalDebt,
      derivedCommonStockEquity, scenarioEquityMissing, BalanceRec.blank]
  · norm_num [reconcilePass, fixEquation, fixCalculatedFields, repairedEquity,
      repairedLiabilities, eqNeedsFix, derivedWorkingCapital, derivedTotalDebt,
      derivedCommonStockEquity, scenarioEquityMissing, BalanceRec.blank, qualityScore]
  · norm_num [reconcilePass, fixEquation, fixCalculatedFields, repairedEquity,
      repairedLiabilities, eqNeedsFix, derivedWorkingCapital, derivedTotalDebt,
      derivedCommonStockEquity, scenarioEquityMissing, BalanceRec.blank, qualityFlags]
  · intro r h
    rcases r with ⟨ta, tl, se, c4, c5, c6, c7, c8, c9, c10, c11, c12⟩
    dsimp only at h
    subst h
    exact ⟨rfl, rfl⟩
  · intro r a ha hl
    rcases r with ⟨ta, tl, se, c4, c5, c6, c7, c8, c9, c10, c11, c12⟩
    dsimp only at ha hl
    subst ha; subst hl
    exact ⟨rfl, rfl⟩
  · intro r a l ha hl he
    rcases r with ⟨ta, tl, se, c4, c5, c6, c7, c8, c9, c10, c11, c12⟩
    dsimp only at ha hl he
    subst ha; subst hl; subst he
    exact ⟨rfl, rfl⟩
  · intro r a l e ha hl he h
    rcases r with ⟨ta, tl, se, c4, c5, c6, c7, c8, c9, c10, c11, c12⟩
    dsimp only at ha hl he
    subst ha; subst hl; subst he
    constructor
    · simp only [qualityScore]; rw [if_pos h]
    · simp only [qualityFlags]; rw [if_pos h]
  · intro r a l e ha hl he h1 h2
    rcases r with ⟨ta, tl, se, c4, c5, c6, c7, c8, c9, c10, c11, c12⟩
    dsimp only at ha hl he
    subst ha; subst hl; subst he
    constructor
    · simp only [qualityScore]; rw [if_neg (not_lt.mpr h1), if_pos h2]
    · simp only [qualityFlags]; rw [if_neg (not_lt.mpr h1), if_pos h2]
  · intro r a l e ha hl he h
    rcases r with ⟨ta, tl, se, c4, c5, c6, c7, c8, c9, c10, c11, c12⟩
    dsimp only at ha hl he
    subst ha; subst hl; subst he
    have h1 : ¬ (1000000 : ℚ) < |a - (l + e)| := not_lt.mpr (le_trans h (by norm_num))
    have h2 : ¬ (100000 : ℚ) < |a - (l + e)| := not_lt.mpr h
    constructor
    · simp only [qualityScore]; rw [if_neg h1, if_neg h2]
    · simp only [qualityFlags]; rw [if_neg h1, if_neg h2]

/-- Witness for C6 at the all-NULL record, which scores 0 with flag
`missing_assets`. -/
theorem quality_score_decision_table_witness :
    qualityScore BalanceRec.blank = 0 ∧
      qualityFlags BalanceRec.blank = [QFlag.missing_assets] :=
  quality_score_decision_table.1 BalanceRec.blank rfl

/-! ## Claim C7: every repair write is bounded -/

/-- Claim C7: whenever `fix_balance_sheet_equation` changes equity it writes
`assets - liabilities` and the written value is not below `-0.5 * assets`;
whenever it changes liabilities it writes `assets - equity` inside
`[0, assets]`; and it touches no other field, so it never fabricates a value
when neither repair's preconditions hold. -/
theorem equation_repair_bounded (r : BalanceRec) :
    ((fixEquation r).stockholders_equity ≠ r.stockholders_equity →
      ∃ a l, r.total_assets = some a ∧ r.total_liabilities = some l ∧
        (fixEquation r).stockholders_equity = some (a - l) ∧ -(a / 2) ≤ a - l) ∧
    ((fixEquation r).total_liabilities ≠ r.total_liabilities →
      ∃ a e, r.total_assets = some a ∧ r.stockholders_equity = some e ∧
        r.total_liabilities = none ∧
        (fixEquation r).total_liabilities = some (a - e) ∧ 0 ≤ a - e ∧ a - e ≤ a) ∧
    (fixEquation r).total_assets = r.total_assets ∧
    (fixEquation r).current_assets = r.current_assets ∧
    (fixEquation r).current_liabilities = r.current_liabilities ∧
    (fixEquation r).working_capital = r.working_capital ∧
    (fixEquation r).short_term_debt = r.short_term_debt ∧
    (fixEquation r).long_term_debt = r.long_term_debt ∧
    (fixEquation r).total_debt = r.total_debt ∧
    (fixEquation r).minority_interest = r.minority_interest ∧
    (fixEquation r).common_stock_equity = r.common_stock_equity ∧
    (fixEquation r).common_stock = r.common_stock := by
  have hse : (fixEquation r).stockholders_equity =
      repairedEquity r.total_assets r.total_liabilities r.stockholders_equity := rfl
  have htl : (fixEquation r).total_liabilities =
      repairedLiabilities r.total_assets r.total_liabilities
        (repairedEquity r.total_assets r.total_liabilities r.stockholders_equity) := rfl
  refine ⟨?_, ?_, rfl, rfl, rfl, rfl, rfl, rfl, rfl, rfl, rfl, rfl⟩
  · intro hne
    rw [hse] at hne ⊢
    rcases hA : r.total_assets with _ | a <;> rw [hA] at hne
    · rcases hL : r.total_liabilities with _ | l <;> rw [hL] at hne <;>
        simp [repairedEquity] at hne
    · rcases hL : r.total_liabilities with _ | l <;> rw [hL] at hne
      · simp [repairedEquity] at hne
      · by_cases hC : (eqNeedsFix a l r.stockholders_equity ∧ a ≠ 0 ∧ l ≠ 0 ∧
            -(a / 2) < a - l)
        · refine ⟨a, l, rfl, rfl, ?_, le_of_lt hC.2.2.2⟩
          simp only [repairedEquity]
          rw [if_pos hC]
        · exfalso
          apply hne
          simp only [repairedEquity]
          rw [if_neg hC]
  · intro hne
    rw [htl] at hne ⊢
    rcases hA : r.total_assets with _ | a <;> rw [hA] at hne
    · rcases hL : r.total_liabilities with _ | l <;> rw [hL] at hne <;>
        rcases hS : r.stockholders_equity with _ | e <;> rw [hS] at hne <;>
        simp [repairedEquity, repairedLiabilities] at hne
    · rcases hL : r.total_liabilities with _ | l <;> rw [hL] at hne
      · rcases hS : r.stockholders_equity with _ | e <;> rw [hS] at hne
        · simp [repairedEquity, repairedLiabilities] at hne
        · have he1 : repairedEquity (some a) none (some e) = some e := rfl
          rw [he1] at hne ⊢
          by_cases hD : (a ≠ 0 ∧ e ≠ 0 ∧ 0 ≤ a - e ∧ a - e ≤ a)
          · refine ⟨a, e, rfl, rfl, rfl, ?_, hD.2.2.1, hD.2.2.2⟩
            simp only [repairedLiabilities]
            rw [if_pos hD]
          · exfalso
            apply hne
            simp only [repairedLiabilities]
            rw [if_neg hD]
      · exfalso
        apply hne
        cases hX : repairedEquity (some a) (some l) r.stockholders_equity <;> rfl

/-- Witness for C7: on the scenario record the equity write is
`1000000 - 600000` and honours the bound. -/
theorem equation_repair_bounded_witness :
    ∃ a l, scenarioEquityMissing.total_assets = some a ∧
      scenarioEquityMissing.total_liabilities = some l ∧
      (fixEquation scenarioEquityMissing).stockholders_equity = some (a - l) ∧
      -(a / 2) ≤ a - l :=
  (equation_repair_bounded scenarioEquityMissing).1
    (by
      norm_num [fixEquation, repairedEquity, repairedLiabilities, eqNeedsFix,
        scenarioEquityMissing, BalanceRec.blank]
      exact Option.some_ne_none _)

/-! ## Claim C4: year-over-year alignment -/

/-- Claim C4 counterexample: `calculate_yoy_growth` performs a calendar-date
lookup, not an ordinal 4-back lookup.  On `stmtsIrregular` (8 quarterly
periods, the 2021-09 filing missing) the comparison record for the period at
index 7 is the record at index 4, and the computed revenue growth is 50,
whereas the 4-positions-earlier record (index 3, revenue 10) would give 200.
On `stmtsShort` the period at index 3 has only three prior periods, yet growth
is present, not absent. -/
theorem yoy_ordinal_alignment_counterexample :
    resolveIncomeAsOf stmtsIrregular (prevYearDate ⟨2021, 12, 31⟩) =
      stmtsIrregular.get? 4 ∧
    stmtsIrregular.get? 4 ≠ stmtsIrregular.get? 3 ∧
    calculate_yoy_growth stmtsIrregular ⟨2021, 12, 31⟩ = Except.ok (some 50, none) ∧
    (30 - 10) / (10 : ℚ) * 100 = 200 ∧ (50 : ℚ) ≠ 200 ∧
    calculate_yoy_growth stmtsShort ⟨2020, 6, 30⟩ = Except.ok (some 50, none) := by
  have hcur : resolveIncomeAsOf stmtsIrregular ⟨2021, 12, 31⟩ =
      some (mkIncomeStmt 2021 12 31 30) := by decide
  have hprev : resolveIncomeAsOf stmtsIrregular (prevYearDate ⟨2021, 12, 31⟩) =
      some (mkIncomeStmt 2020 12 31 20) := by decide
  have hcur2 : resolveIncomeAsOf stmtsShort ⟨2020, 6, 30⟩ =
      some (mkIncomeStmt 2020 6 30 150) := by decide
  have hprev2 : resolveIncomeAsOf stmtsShort (prevYearDate ⟨2020, 6, 30⟩) =
      some (mkIncomeStmt 2019 6 30 100) := by decide
  refine ⟨by decide, by decide, ?_, by norm_num, by norm_num, ?_⟩
  · simp only [calculate_yoy_growth, hcur, hprev, Option.map_some']
    norm_num [yoyFromPair, yoyRevenueBranch, yoyEarningsBranch, mkIncomeStmt]
  · simp only [calculate_yoy_growth, hcur2, hprev2, Option.map_some']
    norm_num [yoyFromPair, yoyRevenueBranch, yoyEarningsBranch, mkIncomeStmt]

/-- Claim C4 amended: the final definition of `calculate_quarterly_metrics`
(the `LAG(total_revenue, 4)` query) does perform the ordinal lookup: over any
8-period quarterly revenue column, the comparison value at index 7 is the value
at index 3, and where fewer than four prior periods exist the lagged value is
NULL and the growth is absent. -/
theorem yoy_quarterly_lag4_alignment (xs : List (Option ℚ)) (h : xs.length = 8) :
    lagAt 4 7 xs = xs.getD 3 none ∧
    ∀ i : ℕ, i < 4 → lagAt 4 i xs = none ∧ quarterlyRevGrowthAt xs i = none := by
  constructor
  · simp [lagAt]
  · intro i hi
    have h4 : ¬ 4 ≤ i := by omega
    refine ⟨by simp [lagAt, h4], ?_⟩
    simp [quarterlyRevGrowthAt, lagAt, h4, popRevenueGrowth]

/-- Witness for the amended C4 on a concrete 8-quarter revenue column. -/
theorem yoy_quarterly_lag4_alignment_witness :
    lagAt 4 7 quarterlyRevenues8 = quarterlyRevenues8.getD 3 none ∧
      (lagAt 4 0 quarterlyRevenues8 = none ∧
        quarterlyRevGrowthAt quarterlyRevenues8 0 = none) :=
  ⟨(yoy_quarterly_lag4_alignment quarterlyRevenues8 rfl).1,
    (yoy_quarterly_lag4_alignment quarterlyRevenues8 rfl).2 0 (by norm_num)⟩

/-! ## Claim C5: the growth formula -/

/-- Claim C5 counterexample: revenue growth is not
`safe_div(current - previous, |previous|)`.  At current 10, previous -5 the
code yields absent although the formula gives 3; at current 10, previous 5 the
code yields 100 (percentage scaling) although the formula gives 1. -/
theorem growth_abs_denominator_counterexample :
    yoyRevenueBranch (some 10) (some (-5)) = Except.ok none ∧
    safe_divide (some (10 - (-5))) (some |(-5 : ℚ)|) = some 3 ∧
    yoyRevenueBranch (some 10) (some 5) = Except.ok (some 100) ∧
    safe_divide (some (10 - 5)) (some |(5 : ℚ)|) = some 1 := by
  refine ⟨?_, ?_, ?_, ?_⟩
  · norm_num [yoyRevenueBranch]
  · rw [abs_of_nonpos (by norm_num : (-5 : ℚ) ≤ 0)]
    norm_num [safe_divide]
  · norm_num [yoyRevenueBranch]
  · rw [abs_of_pos (by norm_num : (0 : ℚ) < 5)]
    norm_num [safe_divide]

/-- Claim C5 amended: in `calculate_yoy_growth`, earnings growth equals
`100 * safe_div(current - previous, |previous|)` whenever the previous value is
present and nonzero and the current value is present; revenue growth is guarded
by `previous > 0` (under which dividing by `previous` equals dividing by
`|previous|`) and is absent whenever `previous <= 0` or previous is absent. -/
theorem yoy_growth_formula (c p : ℚ) :
    (p ≠ 0 → yoyEarningsBranch (some c) (some p) =
      Except.ok ((safe_divide (some (c - p)) (some |p|)).map (fun q => q * 100))) ∧
    (0 < p → yoyRevenueBranch (some c) (some p) =
      Except.ok ((safe_divide (some (c - p)) (some |p|)).map (fun q => q * 100))) ∧
    (p ≤ 0 → yoyRevenueBranch (some c) (some p) = Except.ok none) ∧
    yoyRevenueBranch (some c) none = Except.ok none ∧
    yoyEarningsBranch (some c) none = Except.ok none := by
  refine ⟨?_, ?_, ?_, rfl, rfl⟩
  · intro hp
    have habs : |p| ≠ 0 := abs_ne_zero.mpr hp
    simp [yoyEarningsBranch, safe_divide, hp, habs]
  · intro hp
    have habs : |p| = p := abs_of_pos hp
    simp [yoyRevenueBranch, safe_divide, habs, hp, hp.ne']
  · intro hp
    simp [yoyRevenueBranch, not_lt.mpr hp]

/-- Witness for the amended C5 at current 7, previous -2. -/
theorem yoy_growth_formula_witness :
    yoyEarningsBranch (some 7) (some (-2)) =
      Except.ok ((safe_divide (some (7 - (-2))) (some |(-2 : ℚ)|)).map
        (fun q => q * 100)) :=
  (yoy_growth_formula 7 (-2)).1 (by norm_num)

/-! ## Lemmas about the Derived Metric Calculator -/

/-- Provenance of the market cap computed by the price block: a present market
cap always comes from `int(close_price * common_stock)` with positive
`common_stock` from the balance sheet, and it is absent whenever the balance
sheet is absent or its `common_stock` is absent or not positive. -/
theorem priceStep_market_cap (price : Option PriceData) (balance : Option BalanceRec)
    (cp : Option ℚ) (mc : Option ℤ) (h : priceStep price balance = some (cp, mc)) :
    (∀ k : ℤ, mc = some k → ∃ b cs p cpv, balance = some b ∧ b.common_stock = some cs ∧
      0 < cs ∧ price = some p ∧ p.close_price = some cpv ∧ k = ratTrunc (cpv * cs)) ∧
    (balance = none → mc = none) ∧
    (∀ b : BalanceRec, balance = some b → b.common_stock = none → mc = none) ∧
    (∀ (b : BalanceRec) (cs : ℚ), balance = some b → b.common_stock = some cs →
      cs ≤ 0 → mc = none) := by
  cases price with
  | none =>
    simp only [priceStep, Option.some.injEq, Prod.mk.injEq] at h
    obtain ⟨h1, h2⟩ := h
    subst h2
    exact ⟨fun k hk => absurd hk (by simp), fun _ => rfl, fun _ _ _ => rfl,
      fun _ _ _ _ _ => rfl⟩
  | some p =>
    cases balance with
    | none =>
      simp only [priceStep, Option.some.injEq, Prod.mk.injEq] at h
      obtain ⟨h1, h2⟩ := h
      subst h2
      exact ⟨fun k hk => absurd hk (by simp), fun _ => rfl, fun _ _ _ => rfl,
        fun _ _ _ _ _ => rfl⟩
    | some b =>
      cases hcs : b.common_stock with
      | none =>
        simp only [priceStep, hcs, Option.some.injEq, Prod.mk.injEq] at h
        obtain ⟨h1, h2⟩ := h
        subst h2
        exact ⟨fun k hk => absurd hk (by simp), fun _ => rfl, fun _ _ _ => rfl,
          fun _ _ _ _ _ => rfl⟩
      | some cs =>
        by_cases hpos : 0 < cs
        · cases hcp : p.close_price with
          | none =>
            simp only [priceStep, hcs, hcp, if_pos hpos] at h
            exact absurd h (by simp)
          | some cpv =>
            simp only [priceStep, hcs, hcp, if_pos hpos, Option.some.injEq,
              Prod.mk.injEq] at h
            obtain ⟨h1, h2⟩ := h
            subst h2
            refine ⟨?_, fun hb => absurd hb (by simp), ?_, ?_⟩
            · intro k hk
              exact ⟨b, cs, p, cpv, rfl, hcs, hpos, rfl, hcp,
                (Option.some.inj hk).symm⟩
            · intro b' hb' hcs'
              have hbb : b = b' := Option.some.inj hb'
              subst hbb
              rw [hcs] at hcs'
              exact absurd hcs' (by simp)
            · intro b' cs' hb' hcs' hle
              have hbb : b = b' := Option.some.inj hb'
              subst hbb
              rw [hcs] at hcs'
              have hcc : cs = cs' := Option.some.inj hcs'
              subst hcc
              exact absurd hpos (not_lt.mpr hle)
        · simp only [priceStep, hcs, if_neg hpos, Option.some.injEq, Prod.mk.injEq] at h
          obtain ⟨h1, h2⟩ := h
          subst h2
          exact ⟨fun k hk => absurd hk (by simp), fun _ => rfl, fun _ _ _ => rfl,
            fun _ _ _ _ _ => rfl⟩

/-- Shape of any record `calculate_metrics_for_period` returns: its
current-price/market-cap pair is the price block's, trailing PE and
price-to-sales come from the market-cap-gated valuation block, book value per
share from the balance block, and `price_to_book` is never set. -/
theorem calcMetrics_fields (income : Option IncomeData) (balance : Option BalanceRec)
    (cashflow : Option CashflowData) (price : Option PriceData) (so : Option ℚ)
    (prevIncome : Option IncomeData) (m : Metrics)
    (hm : calcMetrics income balance cashflow price so prevIncome = some m) :
    priceStep price balance = some (m.current_price, m.market_cap) ∧
    m.trailing_pe = trailingPeOf income m.market_cap price ∧
    m.price_to_sales = priceToSalesOf income m.market_cap ∧
    m.book_value_per_share = bookValuePerShareOf balance so ∧
    m.price_to_book = none := by
  unfold calcMetrics at hm
  split at hm
  · exact absurd hm (by simp)
  · split at hm
    next => exact absurd hm (by simp)
    next cp mc hps =>
      split at hm
      next => exact absurd hm (by simp)
      next rg eg hyoy =>
        have hm' := Option.some.inj hm
        subst hm'
        exact ⟨hps, rfl, rfl, rfl, rfl⟩

/-- Concrete run: income `incPos`, balance `balShares2`, price 100, 10 shares
outstanding. -/
theorem calcMetrics_pe_eval :
    calcMetrics (some incPos) (some balShares2) none (some price100) (some 10) none =
      some mPe := by
  norm_num [calcMetrics, priceStep, ratTrunc, yoyFromPair, marginBlock, trailingPeOf,
    priceToSalesOf, debtToEquityOf, returnOnEquityOf, returnOnAssetsOf, currentRatioOf,
    sharesMetricOf, bookValuePerShareOf, operatingCashflowOf, freeCashflowOf,
    fcfPerShareOf, safe_divide, truthy, incPos, balShares2, price100, BalanceRec.blank,
    mPe, Int.floor_ofNat]
  simp

/-- Concrete run: same inputs but with the negative-EPS statement. -/
theorem calcMetrics_negEps_eval :
    calcMetrics (some incNegEps) (some balShares2) none (some price100) (some 10) none =
      some mNegEps := by
  norm_num [calcMetrics, priceStep, ratTrunc, yoyFromPair, marginBlock, trailingPeOf,
    priceToSalesOf, debtToEquityOf, returnOnEquityOf, returnOnAssetsOf, currentRatioOf,
    sharesMetricOf, bookValuePerShareOf, operatingCashflowOf, freeCashflowOf,
    fcfPerShareOf, safe_divide, truthy, incNegEps, balShares2, price100,
    BalanceRec.blank, mNegEps, mPe, Int.floor_ofNat]
  simp

/-- Concrete run: no income statement, balance `balEquity50`, price 100, 10
shares outstanding. -/
theorem calcMetrics_book_eval :
    calcMetrics none (some balEquity50) none (some price100) (some 10) none =
      some mBook := by
  norm_num [calcMetrics, priceStep, ratTrunc, yoyFromPair, marginBlock, trailingPeOf,
    priceToSalesOf, debtToEquityOf, returnOnEquityOf, returnOnAssetsOf, currentRatioOf,
    sharesMetricOf, bookValuePerShareOf, operatingCashflowOf, freeCashflowOf,
    fcfPerShareOf, safe_divide, truthy, balEquity50, price100, BalanceRec.blank, mBook,
    Int.floor_ofNat]
  simp

/-- Concrete run: income `incPos`, no balance sheet, price 100, 11 shares
outstanding. -/
theorem calcMetrics_noBalance_eval :
    calcMetrics (some incPos) none none (some price100) (some 11) none =
      some mNoBalance := by
  norm_num [calcMetrics, priceStep, ratTrunc, yoyFromPair, marginBlock, trailingPeOf,
    priceToSalesOf, debtToEquityOf, returnOnEquityOf, returnOnAssetsOf, currentRatioOf,
    sharesMetricOf, bookValuePerShareOf, operatingCashflowOf, freeCashflowOf,
    fcfPerShareOf, safe_divide, truthy, incPos, price100, BalanceRec.blank, mNoBalance,
    Int.floor_ofNat]
  simp

/-! ## Claim C8: trailing PE under non-positive EPS -/

/-- Claim C8 counterexample: with diluted EPS 5 > 0 and close price 100
present but no balance sheet (hence no market cap), the computed trailing PE is
absent, not `safe_div(price, eps) = 20`. -/
theorem trailing_pe_market_cap_counterexample :
    (calcMetrics (some incPos) none none (some price100) (some 11) none).bind
      Metrics.trailing_pe = none ∧
    incPos.diluted_eps = some 5 ∧ (0 : ℚ) < 5 ∧ price100.close_price = some 100 ∧
    safe_divide (some 100) (some 5) = some 20 := by
  refine ⟨?_, rfl, by norm_num, rfl, ?_⟩
  · rw [calcMetrics_noBalance_eval]; rfl
  · norm_num [safe_divide]

/-- Claim C8 amended: whenever diluted EPS is present and non-positive the
computed trailing PE is absent; when diluted EPS is positive, the price row is
present, and the computed market cap is present and nonzero, the trailing PE is
exactly `safe_divide(close_price, eps)`; in particular EPS -2 with price 100
yields an absent trailing PE. -/
theorem trailing_pe_guard (income : Option IncomeData) (balance : Option BalanceRec)
    (cashflow : Option CashflowData) (price : Option PriceData) (so : Option ℚ)
    (prevIncome : Option IncomeData) (m : Metrics) (inc : IncomeData) (e : ℚ)
    (hm : calcMetrics income balance cashflow price so prevIncome = some m)
    (hinc : income = some inc) (heps : inc.diluted_eps = some e) :
    (e ≤ 0 → m.trailing_pe = none) ∧
    (∀ (p : PriceData) (k : ℤ), 0 < e → price = some p → m.market_cap = some k →
      k ≠ 0 → m.trailing_pe = safe_divide p.close_price (some e)) ∧
    (calcMetrics (some incNegEps) (some balShares2) none (some price100) (some 10)
      none).bind Metrics.trailing_pe = none := by
  obtain ⟨-, htpe, -, -, -⟩ :=
    calcMetrics_fields income balance cashflow price so prevIncome m hm
  subst hinc
  refine ⟨?_, ?_, by rw [calcMetrics_negEps_eval]; rfl⟩
  · intro he
    rw [htpe]
    cases hmc : m.market_cap with
    | none => rfl
    | some k =>
      simp only [trailingPeOf]
      split_ifs with hk
      · simp only [heps]
        rw [if_neg (not_lt.mpr he)]
      · rfl
  · intro p k he hp hmc hk
    subst hp
    rw [htpe, hmc]
    simp only [trailingPeOf]
    rw [if_pos hk]
    simp only [heps]
    rw [if_pos he]

/-- Witness for the amended C8 on the concrete `mPe` run. -/
theorem trailing_pe_guard_witness :
    mPe.trailing_pe = safe_divide price100.close_price (some 5) := by
  have h := trailing_pe_guard (some incPos) (some balShares2) none (some price100)
    (some 10) none mPe incPos 5 calcMetrics_pe_eval rfl rfl
  exact h.2.1 price100 200 (by norm_num) rfl (by rfl) (by norm_num)

/-! ## Claim C9: price-to-book -/

/-- Claim C9 counterexample: with price 100, equity 50 and 10 shares all
present and nonzero, book value per share is 5 but the stored `price_to_book`
is absent, not `safe_div(price, book_value_per_share) = 20`. -/
theorem price_to_book_never_computed_counterexample :
    (calcMetrics none (some balEquity50) none (some price100) (some 10) none).bind
      Metrics.price_to_book = none ∧
    (calcMetrics none (some balEquity50) none (some price100) (some 10) none).bind
      Metrics.book_value_per_share = some 5 ∧
    safe_divide (some 100) (some 5) = some 20 ∧ (none : Option ℚ) ≠ some 20 := by
  refine ⟨?_, ?_, ?_, by simp⟩
  · rw [calcMetrics_book_eval]; rfl
  · rw [calcMetrics_book_eval]; rfl
  · norm_num [safe_divide]

/-- Claim C9 amended: `book_value_per_share` equals
`safe_divide(stockholders_equity, shares_outstanding)` whenever the balance
sheet is present and the resolved share count is present and positive, but
`price_to_book` is never computed: it is absent in every record the calculator
returns. -/
theorem price_to_book_absent (income : Option IncomeData) (balance : Option BalanceRec)
    (cashflow : Option CashflowData) (price : Option PriceData) (so : Option ℚ)
    (prevIncome : Option IncomeData) (m : Metrics)
    (hm : calcMetrics income balance cashflow price so prevIncome = some m) :
    m.price_to_book = none ∧
    (∀ (b : BalanceRec) (s : ℚ), balance = some b → so = some s → 0 < s →
      m.book_value_per_share = safe_divide b.stockholders_equity (some s)) := by
  obtain ⟨-, -, -, hbv, hpb⟩ :=
    calcMetrics_fields income balance cashflow price so prevIncome m hm
  refine ⟨hpb, ?_⟩
  intro b s hb hs hpos
  subst hb
  subst hs
  rw [hbv]
  simp only [bookValuePerShareOf]
  rw [if_pos hpos]

/-- Witness for the amended C9 on the concrete `mBook` run. -/
theorem price_to_book_absent_witness :
    mBook.price_to_book = none ∧
      mBook.book_value_per_share =
        safe_divide balEquity50.stockholders_equity (some 10) := by
  have h := price_to_book_absent none (some balEquity50) none (some price100)
    (some 10) none mBook calcMetrics_book_eval
  exact ⟨h.1, h.2 balEquity50 10 rfl rfl (by norm_num)⟩

/-! ## Claim C10: market-cap provenance and gating -/

/-- Claim C10: the share count behind `market_cap` is the balance sheet's
`common_stock` (for any resolved `shares_outstanding` value), trailing PE and
price-to-sales are computed only when the market cap is present and nonzero,
and whenever the balance sheet is absent or its `common_stock` is absent or not
positive, `market_cap`, `trailing_pe` and `price_to_sales` are all absent. -/
theorem market_cap_gating (income : Option IncomeData) (balance : Option BalanceRec)
    (cashflow : Option CashflowData) (price : Option PriceData) (so : Option ℚ)
    (prevIncome : Option IncomeData) (m : Metrics)
    (hm : calcMetrics income balance cashflow price so prevIncome = some m) :
    (∀ k : ℤ, m.market_cap = some k →
      ∃ b cs p cp, balance = some b ∧ b.common_stock = some cs ∧ 0 < cs ∧
        price = some p ∧ p.close_price = some cp ∧ k = ratTrunc (cp * cs)) ∧
    (m.market_cap = none → m.trailing_pe = none ∧ m.price_to_sales = none) ∧
    (m.market_cap = some 0 → m.trailing_pe = none ∧ m.price_to_sales = none) ∧
    ((balance = none ∨ ∃ b, balance = some b ∧ (b.common_stock = none ∨
        ∃ cs, b.common_stock = some cs ∧ cs ≤ 0)) →
      m.market_cap = none ∧ m.trailing_pe = none ∧ m.price_to_sales = none) := by
  obtain ⟨hps, htpe, hpts, -, -⟩ :=
    calcMetrics_fields income balance cashflow price so prevIncome m hm
  have hProv := priceStep_market_cap price balance _ _ hps
  have hnone : m.market_cap = none → m.trailing_pe = none ∧ m.price_to_sales = none := by
    intro h0
    rw [htpe, hpts, h0]
    exact ⟨by cases income <;> rfl, by cases income <;> rfl⟩
  refine ⟨hProv.1, hnone, ?_, ?_⟩
  · intro h0
    rw [htpe, hpts, h0]
    constructor
    · cases income with
      | none => rfl
      | some inc => simp [trailingPeOf]
    · cases income with
      | none => rfl
      | some inc => simp [priceToSalesOf]
  · rintro (hb | ⟨b, hb, hcs | ⟨cs, hcs, hle⟩⟩)
    · have h0 := hProv.2.1 hb
      exact ⟨h0, hnone h0⟩
    · have h0 := hProv.2.2.1 b hb hcs
      exact ⟨h0, hnone h0⟩
    · have h0 := hProv.2.2.2 b cs hb hcs hle
      exact ⟨h0, hnone h0⟩

/-- Witness for C10 on the concrete balance-sheet-free run. -/
theorem market_cap_gating_witness :
    mNoBalance.market_cap = none ∧ mNoBalance.trailing_pe = none ∧
      mNoBalance.price_to_sales = none := by
  have h := market_cap_gating (some incPos) none none (some price100) (some 11) none
    mNoBalance calcMetrics_noBalance_eval
  exact h.2.2.2 (Or.inl rfl)

end YFin
